import Mathlib

/-!
# CarLog backend — shallow embedding and verification

A shallow embedding of the CarLog backend's maintenance-interval scheduling
engine and derived-metrics layer (`src/CarLog/backend/services/`), with
theorems settling the specification claims.

Modelling conventions:
* SQLite tables become Lean lists of records; `NULL`-able columns become
  `Option` fields.  Python `float` money/volume values are modelled as exact
  rationals `ℚ`; odometer/mileage values are `ℤ` (SQLite INTEGER columns).
* Dates are modelled as day numbers (`ℤ`); "date + k days" is `+ k`.
* Python exceptions become `Except Err`; Python truthiness of a nullable
  integer column (`None`/`0` falsy) is made explicit at each use site.
* SQL `ORDER BY` is modelled by insertion sort with the corresponding key.
-/

namespace CarLog

/-- Error taxonomy of `base_service.py`: `ValidationError`, `NotFoundError`,
plus Python's `TypeError` for `None + int`. -/
inductive Err : Type
  | validation
  | notFound
  | typeError
deriving DecidableEq, Repr

/-! ## Python string primitives used by `validate_vin` -/

/-- ASCII whitespace stripped by Python's `str.strip()`. -/
def is_py_space (c : Char) : Bool :=
  c = ' ' || c = '\t' || c = '\n' || c = '\r' || c = '\x0b' || c = '\x0c'

/-- Python `s.strip()` on a character list. -/
def py_strip (s : List Char) : List Char :=
  ((s.dropWhile is_py_space).reverse.dropWhile is_py_space).reverse

/-- `vin.strip().upper()` from `validate_vin` (ASCII case mapping; VIN data
is ASCII alphanumeric). -/
def normalize_vin (s : String) : String :=
  ⟨(py_strip s.data).map Char.toUpper⟩

/-- Embeds `base_service.validate_vin`: empty input rejected, then
strip/uppercase, require length 17, reject the letters I, O, Q. -/
def validate_vin (s : String) : Except Err String :=
  if s = "" then .error .validation
  else
    let v := normalize_vin s
    if v.length ≠ 17 then .error .validation
    else if v.data.any (fun c => c = 'I' || c = 'O' || c = 'Q') then .error .validation
    else .ok v

/-! ## Python `round` (banker's rounding) on exact rationals -/

/-- Floor of a rational, written with `Int.fdiv` so that it evaluates by
kernel reduction. -/
def q_floor (q : ℚ) : ℤ := q.num.fdiv q.den

/-- Round to the nearest integer, ties to even — the semantics of Python's
built-in `round` (float representation error aside; all claim inputs are
exactly representable). -/
def round_half_even (q : ℚ) : ℤ :=
  let f := q_floor q
  let r := q - f
  if r < 1/2 then f
  else if 1/2 < r then f + 1
  else if f % 2 = 0 then f else f + 1

/-- Python `round(q, n)`. -/
def py_round (q : ℚ) (n : ℕ) : ℚ :=
  (round_half_even (q * (10 ^ n)) : ℚ) / (10 ^ n)

/-! ## Data model (schema of `db_helper.py` / `schema.py`) -/

/-- A row of the `vehicles` table (fields the core logic reads). -/
structure Vehicle : Type where
  vin : String
  year : ℤ
  make : String
  model : String
  current_mileage : Option ℤ
deriving DecidableEq, Repr

/-- A row of the `fuel_logs` table. -/
structure FuelLog : Type where
  id : ℕ
  vin : String
  gallons : ℚ
  total_cost : ℚ
  odometer : ℤ
  full_tank : Bool
deriving DecidableEq, Repr

/-- A row of the `repairs` table. -/
structure Repair : Type where
  id : ℕ
  vin : String
  cost : ℚ
deriving DecidableEq, Repr

/-- A row of the `trips` table. -/
structure Trip : Type where
  id : ℕ
  vin : String
deriving DecidableEq, Repr

/-- A row of the `mileage_history` table. -/
structure MileageEntry : Type where
  id : ℕ
  vin : String
  mileage : ℤ
deriving DecidableEq, Repr

/-- A row of the `maintenance_intervals` table. -/
structure MaintenanceInterval : Type where
  id : ℕ
  vin : String
  service_type : String
  interval_miles : Option ℤ
  interval_months : Option ℤ
  last_performed_mileage : Option ℤ
  last_performed_date : Option ℤ
  next_due_mileage : Option ℤ
  next_due_date : Option ℤ
deriving DecidableEq, Repr

/-- The persistent store: the six tables the core logic touches. -/
structure DB : Type where
  vehicles : List Vehicle
  repairs : List Repair
  fuel_logs : List FuelLog
  maintenance_intervals : List MaintenanceInterval
  mileage_history : List MileageEntry
  trips : List Trip
deriving DecidableEq, Repr

/-- `SELECT * FROM vehicles WHERE vin = ?` (vin is the primary key). -/
def find_vehicle (db : DB) (vin : String) : Option Vehicle :=
  db.vehicles.find? (fun v => v.vin == vin)

/-- First row of
`SELECT * FROM maintenance_intervals WHERE vin = ? AND service_type = ?`. -/
def find_interval (db : DB) (vin st : String) : Option MaintenanceInterval :=
  db.maintenance_intervals.find? (fun i => i.vin == vin && i.service_type == st)

/-! ## SQL `ORDER BY`, modelled by insertion sort -/

/-- Insert `x` before the first element `y` with `le x y`. -/
def insert_by {α : Type} (le : α → α → Bool) (x : α) : List α → List α
  | [] => [x]
  | y :: ys => if le x y then x :: y :: ys else y :: insert_by le x ys

/-- Insertion sort by the boolean relation `le`. -/
def sort_by {α : Type} (le : α → α → Bool) : List α → List α
  | [] => []
  | x :: xs => insert_by le x (sort_by le xs)

/-- `ORDER BY odometer DESC`. -/
def le_od_desc (x y : FuelLog) : Bool := decide (y.odometer ≤ x.odometer)

/-- `ORDER BY next_due_mileage ASC` (all sorted rows here have a non-NULL
key; the default is never consulted). -/
def le_due_asc (x y : MaintenanceInterval) : Bool :=
  decide (x.next_due_mileage.getD 0 ≤ y.next_due_mileage.getD 0)

/-! ## Metrics engine (`analytics_service.py`, `fuel_log_service.py`) -/

/-- Result shape of `calculate_mpg`; `none` fields model absent/`None`
entries of the returned dict. -/
structure MpgResult : Type where
  average_mpg : Option ℚ
  last_mpg : Option ℚ
  best_mpg : Option ℚ
  worst_mpg : Option ℚ
  data_points : ℕ
deriving DecidableEq, Repr

/-- The "insufficient data" result (`average_mpg`/`last_mpg` None, 0 points). -/
def mpg_no_data : MpgResult :=
  { average_mpg := none, last_mpg := none, best_mpg := none,
    worst_mpg := none, data_points := 0 }

/-- The loop body of `calculate_mpg`: for each consecutive pair of the
descending-ordered logs, `miles = logs[i].odometer - logs[i+1].odometer`,
`gallons = logs[i].gallons`, keeping `miles / gallons` when both are
positive. -/
def mpg_values : List FuelLog → List ℚ
  | a :: b :: rest =>
    let miles : ℤ := a.odometer - b.odometer
    let tail := mpg_values (b :: rest)
    if 0 < a.gallons ∧ 0 < miles then ((miles : ℚ) / a.gallons) :: tail else tail
  | _ => []

/-- Python `max` over a non-empty list (the `[]` case is never consulted). -/
def list_max : List ℚ → ℚ
  | [] => 0
  | x :: xs => xs.foldl max x

/-- Python `min` over a non-empty list (the `[]` case is never consulted). -/
def list_min : List ℚ → ℚ
  | [] => 0
  | x :: xs => xs.foldl min x

/-- `SELECT ... FROM fuel_logs WHERE vin = ? AND full_tank = 1`. -/
def full_tank_logs (db : DB) (vin : String) : List FuelLog :=
  db.fuel_logs.filter (fun l => l.vin == vin && l.full_tank)

/-- The rows the MPG query returns: full-tank logs of the vehicle ordered by
odometer descending, limited to `limit + 1` rows. -/
def mpg_selected (db : DB) (vin : String) (limit : ℕ) : List FuelLog :=
  (sort_by le_od_desc (full_tank_logs db vin)).take (limit + 1)

/-- Embeds `AnalyticsService.calculate_mpg` / `FuelLogService.calculate_mpg`:
full-tank logs of the vehicle ordered by odometer descending, limited to
`limit + 1` rows (the analytics variant hard-codes `LIMIT 11`, i.e.
`limit = 10`), then pairwise MPG samples and their statistics. -/
def calculate_mpg (db : DB) (vin : String) (limit : ℕ) : MpgResult :=
  let logs := mpg_selected db vin limit
  if logs.length < 2 then mpg_no_data
  else
    let vals := mpg_values logs
    if vals.isEmpty then mpg_no_data
    else
      { average_mpg := some (py_round (vals.sum / (vals.length : ℚ)) 1)
      , last_mpg := some (py_round (vals.headD 0) 1)
      , best_mpg := some (py_round (list_max vals) 1)
      , worst_mpg := some (py_round (list_min vals) 1)
      , data_points := vals.length }

/-- Result shape of `AnalyticsService.calculate_cost_per_mile`. -/
structure CostPerMileResult : Type where
  total_cost : ℚ
  repair_cost : ℚ
  fuel_cost : ℚ
  total_miles : ℤ
  cost_per_mile : ℚ
  fuel_cost_per_mile : ℚ
  repair_cost_per_mile : ℚ
deriving DecidableEq, Repr

/-- `COALESCE(SUM(cost), 0)` over the vehicle's repairs. -/
def repair_cost_sum (db : DB) (vin : String) : ℚ :=
  ((db.repairs.filter (fun r => r.vin == vin)).map (fun r => r.cost)).sum

/-- `COALESCE(SUM(total_cost), 0)` over the vehicle's fuel logs. -/
def fuel_cost_sum (db : DB) (vin : String) : ℚ :=
  ((db.fuel_logs.filter (fun l => l.vin == vin)).map (fun l => l.total_cost)).sum

/-- `(MAX(odometer) or 0) - (MIN(odometer) or 0)` over the vehicle's fuel
logs (SQL MIN/MAX are NULL on an empty set; Python coerces with `or 0`). -/
def fuel_odometer_span (db : DB) (vin : String) : ℤ :=
  let ods := (db.fuel_logs.filter (fun l => l.vin == vin)).map (fun l => l.odometer)
  (ods.max?.getD 0) - (ods.min?.getD 0)

/-- `(MAX(mileage) or 0) - (MIN(mileage) or 0)` over the vehicle's mileage
history. -/
def mileage_span (db : DB) (vin : String) : ℤ :=
  let ms := (db.mileage_history.filter (fun m => m.vin == vin)).map (fun m => m.mileage)
  (ms.max?.getD 0) - (ms.min?.getD 0)

/-- Embeds `AnalyticsService.calculate_cost_per_mile`: total cost over the
fuel-odometer span, falling back to the mileage-history span when the fuel
span is non-positive, and 0 when the final span is non-positive. -/
def calculate_cost_per_mile (db : DB) (vin : String) : CostPerMileResult :=
  let rc := repair_cost_sum db vin
  let fc := fuel_cost_sum db vin
  let tc := rc + fc
  let tm0 := fuel_odometer_span db vin
  let tm := if tm0 ≤ 0 then mileage_span db vin else tm0
  { total_cost := py_round tc 2
  , repair_cost := py_round rc 2
  , fuel_cost := py_round fc 2
  , total_miles := tm
  , cost_per_mile := py_round (if 0 < tm then tc / (tm : ℚ) else 0) 3
  , fuel_cost_per_mile := py_round (if 0 < tm then fc / (tm : ℚ) else 0) 3
  , repair_cost_per_mile := py_round (if 0 < tm then rc / (tm : ℚ) else 0) 3 }

/-! ## Maintenance scheduler (`maintenance_service.py`) -/

/-- The module-level `DEFAULT_INTERVALS` dict, in insertion order:
service type, miles, months. -/
def DEFAULT_INTERVALS : List (String × ℤ × ℤ) :=
  [ ("Oil Change", 5000, 6)
  , ("Transmission Fluid", 60000, 48)
  , ("Brake Inspection", 25000, 24)
  , ("Air Filter", 15000, 12)
  , ("Tire Rotation", 7500, 6)
  , ("Coolant Flush", 30000, 36)
  , ("Spark Plugs", 60000, 60)
  , ("Battery Check", 25000, 24)
  , ("Brake Fluid", 30000, 24)
  , ("Power Steering Fluid", 50000, 48) ]

/-- `SELECT id FROM maintenance_intervals WHERE vin = ? AND service_type = ?`
as an existence check. -/
def has_interval (l : List MaintenanceInterval) (vin st : String) : Bool :=
  l.any (fun i => i.vin == vin && i.service_type == st)

/-- Surrogate for SQLite AUTOINCREMENT: one more than the largest id. -/
def fresh_id (l : List MaintenanceInterval) : ℕ :=
  (l.map (fun i => i.id)).foldl max 0 + 1

/-- The row the seeding loop inserts for a default-table entry `e`:
`next_due_mileage = current_mileage + default miles`. -/
def seeded_row (vin : String) (cm : ℤ) (acc : List MaintenanceInterval)
    (e : String × ℤ × ℤ) : MaintenanceInterval :=
  { id := fresh_id acc, vin := vin, service_type := e.1
  , interval_miles := some e.2.1, interval_months := some e.2.2
  , last_performed_mileage := none, last_performed_date := none
  , next_due_mileage := some (cm + e.2.1), next_due_date := none }

/-- One iteration of the `initialize_for_vehicle` seeding loop: insert a
default interval row unless one already exists for (vin, service_type).
The accumulator is the live table state, since each insert commits before
the next existence check. -/
def seed_step (vin : String) (cm : ℤ) (acc : List MaintenanceInterval)
    (e : String × ℤ × ℤ) : List MaintenanceInterval :=
  if has_interval acc vin e.1 then acc
  else acc ++ [seeded_row vin cm acc e]

/-- The seeding loop of `initialize_for_vehicle` run over the whole default
table against the current interval rows. -/
def seeded_intervals (acc : List MaintenanceInterval) (vin : String) (cm : ℤ) :
    List MaintenanceInterval :=
  DEFAULT_INTERVALS.foldl (seed_step vin cm) acc

/-- Embeds `MaintenanceService.initialize_for_vehicle` at the state level:
NotFound when the vehicle is absent, otherwise seed every default interval
that does not already exist (`vehicle['current_mileage'] or 0`). -/
def init_for_vehicle (db : DB) (vin0 : String) : Except Err DB := do
  let vin ← validate_vin vin0
  match find_vehicle db vin with
  | none => .error .notFound
  | some veh =>
    let cm := veh.current_mileage.getD 0
    .ok { db with maintenance_intervals :=
            seeded_intervals db.maintenance_intervals vin cm }

/-- Embeds `MaintenanceService.get_overdue`: empty when the vehicle is
absent or its `current_mileage` is Python-falsy (NULL or 0); otherwise the
vehicle's intervals with `next_due_mileage < current_mileage` (SQL discards
NULL keys), ordered by `next_due_mileage` ascending. -/
def get_overdue (db : DB) (vin0 : String) : Except Err (List MaintenanceInterval) := do
  let vin ← validate_vin vin0
  match find_vehicle db vin with
  | none => .ok []
  | some veh =>
    match veh.current_mileage with
    | none => .ok []
    | some cm =>
      if cm = 0 then .ok []
      else
        .ok (sort_by le_due_asc
          (db.maintenance_intervals.filter (fun i =>
            i.vin == vin &&
              match i.next_due_mileage with
              | some n => decide (n < cm)
              | none => false)))

/-- Embeds `MaintenanceService.record_service`.  `today` stands for
`datetime.now()`; a supplied date is modelled as an already-well-formed day
number (`validate_date` only checks the `YYYY-MM-DD` format).  Returns the
new state and the updated row (`cls.update` re-reads the row). -/
def record_service (db : DB) (today : ℤ) (vin0 service_type : String)
    (date? : Option ℤ) (mileage? : Option ℤ) :
    Except Err (DB × MaintenanceInterval) := do
  let vin ← validate_vin vin0
  let date := date?.getD today
  match find_interval db vin service_type with
  | none => .error .notFound
  | some itv =>
    let m : Option ℤ ←
      match mileage? with
      | some mv =>
        -- `int(validate_positive_number(mileage, 'Mileage'))`
        if mv < 0 then .error .validation else .ok (some mv)
      | none =>
        -- `vehicle['current_mileage'] if vehicle else 0`
        .ok (match find_vehicle db vin with
             | some veh => veh.current_mileage
             | none => some 0)
    let next_mileage : Option ℤ ←
      match itv.interval_miles with
      | some k =>
        -- Python truthiness: 0 is falsy, so no recomputation
        if k = 0 then .ok none
        else
          match m with
          | some mv => .ok (some (mv + k))
          | none => .error .typeError  -- `None + int` raises in Python
      | none => .ok none
    let next_date : Option ℤ :=
      match itv.interval_months with
      | some mo => if mo = 0 then none else some (date + mo * 30)
      | none => none
    let itv2 := { itv with
      last_performed_date := some date
      , last_performed_mileage := m
      , next_due_date := next_date
      , next_due_mileage := next_mileage }
    .ok ({ db with maintenance_intervals :=
             db.maintenance_intervals.map (fun i => if i.id = itv.id then itv2 else i) }
        , itv2)

/-! ## Vehicle service (`vehicle_service.py`) -/

/-- The five dependent-table deletes of `VehicleService.delete`, each a
separately committed `execute_delete(..., 'vin = ?')`. -/
def purge_dependents (db : DB) (vin : String) : DB :=
  { db with
    trips := db.trips.filter (fun t => t.vin != vin)
    , fuel_logs := db.fuel_logs.filter (fun f => f.vin != vin)
    , repairs := db.repairs.filter (fun r => r.vin != vin)
    , maintenance_intervals := db.maintenance_intervals.filter (fun i => i.vin != vin)
    , mileage_history := db.mileage_history.filter (fun m => m.vin != vin) }

/-- Embeds `VehicleService.delete`: validate the VIN, delete dependent rows
(each delete commits), then `BaseService.delete` on `vehicles`, which raises
NotFound when the vehicle row is absent.  The returned state is the
persistent state at exit, also on the error paths. -/
def vehicle_delete (db : DB) (vin0 : String) : DB × Except Err Bool :=
  match validate_vin vin0 with
  | .error e => (db, .error e)
  | .ok vin =>
    let db1 := purge_dependents db vin
    match find_vehicle db1 vin with
    | none => (db1, .error .notFound)
    | some _ =>
      ({ db1 with vehicles := db1.vehicles.filter (fun v => v.vin != vin) }, .ok true)

/-- Input dict of `VehicleService.create` (fields the core logic reads);
`current_mileage = none` models an absent key, in which case the inserted
row takes the schema default 0. -/
structure VehicleData : Type where
  vin : String
  year : ℤ
  make : String
  model : String
  current_mileage : Option ℤ
deriving DecidableEq, Repr

/-- `BaseService.get_by_id` on the vehicles table when the key supplied is
an integer: `SELECT * FROM vehicles WHERE vin = ?` bound to an integer.
SQLite applies TEXT affinity of the `vin` column to the integer operand, so
each row's `vin` is compared against the integer's decimal string. -/
def rowid_lookup (vs : List Vehicle) (n : ℕ) : Option Vehicle :=
  vs.find? (fun v => v.vin == toString n)

/-- Embeds `VehicleService.create`, parameterized by the interval-seeding
routine `initFn` (the code calls `MaintenanceService.initialize_for_vehicle`
inside `try: ... except Exception: pass`, so any failure of `initFn` is
swallowed and the operation still completes).  `BaseService.create` returns
`cls.get_by_id(cursor.lastrowid)`; the rowid of the freshly inserted row is
modelled as one more than the prior row count, and the integer-keyed re-read
against the TEXT `vin` primary key is `rowid_lookup`. -/
def vehicle_create (initFn : DB → String → Except Err DB) (db : DB)
    (data : VehicleData) : Except Err (DB × Option Vehicle) := do
  let vin ← validate_vin data.vin
  if data.year < 1900 ∨ 2100 < data.year then .error .validation
  else if (find_vehicle db vin).isSome then .error .validation
  else do
    let cm : Option ℤ ←
      match data.current_mileage with
      | some mv => if mv < 0 then .error .validation else .ok (some mv)
      | none => .ok (some 0)  -- schema: current_mileage INTEGER DEFAULT 0
    let veh : Vehicle :=
      { vin := vin, year := data.year, make := data.make, model := data.model
      , current_mileage := cm }
    let db1 := { db with vehicles := db.vehicles ++ [veh] }
    -- `vehicle = super().create(data)`: re-read by the integer lastrowid
    let created := rowid_lookup db1.vehicles (db.vehicles.length + 1)
    let db2 := match initFn db1 vin with
      | .ok d => d
      | .error _ => db1  -- `except Exception: pass`
    .ok (db2, created)

/-! ## General lemmas about the embedding -/

theorem length_insert_by {α : Type} (le : α → α → Bool) (x : α) (l : List α) :
    (insert_by le x l).length = l.length + 1 := by
  induction l with
  | nil => rfl
  | cons y ys ih =>
    simp only [insert_by]
    by_cases h : le x y = true
    · simp [h]
    · simp [h, ih]

theorem length_sort_by {α : Type} (le : α → α → Bool) (l : List α) :
    (sort_by le l).length = l.length := by
  induction l with
  | nil => rfl
  | cons x xs ih => simp [sort_by, length_insert_by, ih]

theorem mem_insert_by {α : Type} (le : α → α → Bool) (x a : α) (l : List α) :
    a ∈ insert_by le x l ↔ a = x ∨ a ∈ l := by
  induction l with
  | nil => simp [insert_by]
  | cons y ys ih =>
    simp only [insert_by]
    by_cases h : le x y = true
    · simp [h]
    · simp [h, ih]
      tauto

theorem mem_sort_by {α : Type} (le : α → α → Bool) (a : α) (l : List α) :
    a ∈ sort_by le l ↔ a ∈ l := by
  induction l with
  | nil => simp [sort_by]
  | cons x xs ih => simp [sort_by, mem_insert_by, ih]

/-- A successful `validate_vin` returns exactly the stripped/uppercased
input. -/
theorem validate_vin_ok_eq {s v : String} (h : validate_vin s = .ok v) :
    v = normalize_vin s := by
  by_cases he : s = ""
  · simp [validate_vin, he] at h
  · simp only [validate_vin, if_neg he] at h
    by_cases hl : (normalize_vin s).length ≠ 17
    · simp [hl] at h
    · simp only [hl, if_false] at h
      by_cases ha : (normalize_vin s).data.any
          (fun c => c = 'I' || c = 'O' || c = 'Q') = true
      · simp [ha] at h
      · simp [ha] at h
        exact h.symm

/-- A successful `validate_vin` returns a 17-character string. -/
theorem validate_vin_ok_length {s v : String} (h : validate_vin s = .ok v) :
    v.length = 17 := by
  by_cases he : s = ""
  · simp [validate_vin, he] at h
  · simp only [validate_vin, if_neg he] at h
    by_cases hl : (normalize_vin s).length ≠ 17
    · simp [hl] at h
    · by_cases ha : (normalize_vin s).data.any
          (fun c => c = 'I' || c = 'O' || c = 'Q') = true
      · simp [hl, ha] at h
      · simp [hl, ha] at h
        rw [← h]
        exact not_ne_iff.mp hl

/-! ## Claim theorems -/

/-- C9: identifier validation returns the trimmed/uppercased form unchanged
whenever that form has exactly 17 characters and contains none of I, O, Q;
for every input whose trimmed/uppercased form has length ≠ 17 or contains
I, O, or Q, it fails with a validation error. -/
theorem validate_vin_spec (s : String) :
    ((normalize_vin s).length = 17 ∧
        (∀ c ∈ (normalize_vin s).data, c ≠ 'I' ∧ c ≠ 'O' ∧ c ≠ 'Q') →
      validate_vin s = .ok (normalize_vin s))
    ∧ ((normalize_vin s).length ≠ 17 ∨
        (∃ c ∈ (normalize_vin s).data, c = 'I' ∨ c = 'O' ∨ c = 'Q') →
      validate_vin s = .error .validation) := by
  have hany : (normalize_vin s).data.any (fun c => c = 'I' || c = 'O' || c = 'Q') = true
      ↔ ∃ c ∈ (normalize_vin s).data, c = 'I' ∨ c = 'O' ∨ c = 'Q' := by
    simp [List.any_eq_true, or_assoc]
  by_cases he : s = ""
  · constructor
    · rintro ⟨h17, -⟩
      exfalso
      rw [he] at h17
      simp [normalize_vin, py_strip] at h17
    · intro _
      rw [he]
      rfl
  · constructor
    · rintro ⟨h17, hioq⟩
      have hnoany : ¬ (normalize_vin s).data.any
          (fun c => c = 'I' || c = 'O' || c = 'Q') = true := by
        rw [hany]
        rintro ⟨c, hc, hor⟩
        rcases (hioq c hc) with ⟨h1, h2, h3⟩
        rcases hor with h | h | h <;> simp_all
      simp [validate_vin, he, h17, hnoany]
    · intro h
      rcases h with h17 | hioq
      · simp [validate_vin, he, h17]
      · by_cases h17 : (normalize_vin s).length = 17
        · simp [validate_vin, he, h17, hany.mpr hioq]
        · simp [validate_vin, he, h17]

/-- C9 witness: a lowercase, whitespace-padded valid identifier is accepted
and normalized. -/
theorem validate_vin_spec_witness :
    validate_vin " 1hgcm82633a004352 " = .ok (normalize_vin " 1hgcm82633a004352 ") :=
  (validate_vin_spec " 1hgcm82633a004352 ").1 (by decide)

/-- The two-entry MPG scenario of the spec: full-tank fill-ups at odometer
1000 (5 gal) and 1300 (10 gal). -/
def mpg_example_vin : String := "1HGCM82633A004352"

/-- Fuel-log table for the two-entry MPG scenario. -/
def mpg_example_db : DB :=
  { vehicles := [], repairs := []
  , fuel_logs :=
      [ { id := 2, vin := mpg_example_vin, gallons := 10, total_cost := 30
        , odometer := 1300, full_tank := true }
      , { id := 1, vin := mpg_example_vin, gallons := 5, total_cost := 20
        , odometer := 1000, full_tank := true } ]
  , maintenance_intervals := [], mileage_history := [], trips := [] }

/-- C1 counterexample: with full-tank entries at odometers 1000 (5 gal) and
1300 (10 gal), the code yields one sample (1300−1000)/10 = 30.0 — the delta
divided by the volume of the MORE RECENT (higher-odometer) entry — not the
claimed (1300−1000)/5 = 60.0. -/
theorem calculate_mpg_example_cex :
    calculate_mpg mpg_example_db mpg_example_vin 10 =
      { average_mpg := some 30, last_mpg := some 30, best_mpg := some 30
      , worst_mpg := some 30, data_points := 1 }
    ∧ (30 : ℚ) ≠ 60 := by
  constructor
  · norm_num [calculate_mpg, mpg_selected, full_tank_logs, mpg_example_db,
      mpg_example_vin, sort_by, insert_by, le_od_desc, mpg_values, list_max,
      list_min, py_round, round_half_even, q_floor, Int.fdiv, List.filter,
      MpgResult.mk.injEq]
  · norm_num

/-- C1 (amended): when the vehicle's full-tank fuel entries are exactly two,
with distinct odometers and positive volume on the more recent one, the
economy calculation yields the single sample
`distance_delta / volume_of_more_recent_entry` (the higher-odometer entry),
and average, last, best and worst all equal it.  For the spec's example this
is (1300−1000)/10 = 30.0, not 60.0. -/
theorem calculate_mpg_two_entries (db : DB) (vin : String) (a b : FuelLog)
    (limit : ℕ) (hf : full_tank_logs db vin = [a, b])
    (hod : b.odometer < a.odometer) (hg : 0 < a.gallons) (hl : 1 ≤ limit) :
    calculate_mpg db vin limit =
      { average_mpg := some (py_round (((a.odometer - b.odometer : ℤ) : ℚ) / a.gallons) 1)
      , last_mpg := some (py_round (((a.odometer - b.odometer : ℤ) : ℚ) / a.gallons) 1)
      , best_mpg := some (py_round (((a.odometer - b.odometer : ℤ) : ℚ) / a.gallons) 1)
      , worst_mpg := some (py_round (((a.odometer - b.odometer : ℤ) : ℚ) / a.gallons) 1)
      , data_points := 1 } := by
  have hle : le_od_desc a b = true := by
    simp only [le_od_desc, decide_eq_true_eq]
    exact hod.le
  have hsel : mpg_selected db vin limit = [a, b] := by
    unfold mpg_selected
    rw [hf]
    simp only [sort_by, insert_by, hle, if_true]
    apply List.take_of_length_le
    simp only [List.length_cons, List.length_nil]
    omega
  have hmv : mpg_values [a, b] =
      [((a.odometer - b.odometer : ℤ) : ℚ) / a.gallons] := by
    simp [mpg_values, hg, sub_pos.mpr hod]
  unfold calculate_mpg
  rw [hsel]
  simp [hmv, list_max, list_min, div_one]

/-- C1 witness: the amended theorem applied to the concrete two-entry
scenario. -/
theorem calculate_mpg_two_entries_witness :
    calculate_mpg mpg_example_db mpg_example_vin 10 =
      { average_mpg := some (py_round ((1300 - 1000 : ℤ) / (10 : ℚ)) 1)
      , last_mpg := some (py_round ((1300 - 1000 : ℤ) / (10 : ℚ)) 1)
      , best_mpg := some (py_round ((1300 - 1000 : ℤ) / (10 : ℚ)) 1)
      , worst_mpg := some (py_round ((1300 - 1000 : ℤ) / (10 : ℚ)) 1)
      , data_points := 1 } := by
  have h := calculate_mpg_two_entries mpg_example_db mpg_example_vin
    { id := 2, vin := mpg_example_vin, gallons := 10, total_cost := 30
    , odometer := 1300, full_tank := true }
    { id := 1, vin := mpg_example_vin, gallons := 5, total_cost := 20
    , odometer := 1000, full_tank := true }
    10 (by rfl) (by decide) (by norm_num) (by decide)
  rw [h]

/-- C6: when the vehicle has fewer than two full-tank entries, or no
consecutive pair yields a positive distance delta with positive volume, the
economy calculation returns the "no data" result (average and last absent,
zero data points); being a total function of the embedded state, it raises
nothing and never divides by zero. -/
theorem calculate_mpg_no_data_spec (db : DB) (vin : String) (limit : ℕ)
    (h : (full_tank_logs db vin).length < 2 ∨
      mpg_values (mpg_selected db vin limit) = []) :
    calculate_mpg db vin limit = mpg_no_data := by
  unfold calculate_mpg
  rcases h with h | h
  · have hlen : (mpg_selected db vin limit).length < 2 := by
      have h1 : (mpg_selected db vin limit).length ≤
          (sort_by le_od_desc (full_tank_logs db vin)).length := by
        unfold mpg_selected
        rw [List.length_take]
        exact min_le_right _ _
      rw [length_sort_by] at h1
      omega
    simp [hlen]
  · by_cases hlen : (mpg_selected db vin limit).length < 2
    · simp [hlen]
    · simp [hlen, h]

/-- State with no fuel logs at all, for the C6 witness. -/
def no_logs_db : DB :=
  { vehicles := [], repairs := [], fuel_logs := []
  , maintenance_intervals := [], mileage_history := [], trips := [] }

/-- C6 witness: with zero full-tank entries the result is the "no data"
record. -/
theorem calculate_mpg_no_data_witness :
    calculate_mpg no_logs_db "1HGCM82633A004352" 10 = mpg_no_data :=
  calculate_mpg_no_data_spec no_logs_db "1HGCM82633A004352" 10 (Or.inl (by decide))

/-- The cost-per-distance example vehicle. -/
def cost_example_vin : String := "2HGCG225X8A123456"

/-- The cost-per-distance scenario: total repair cost 100, total fuel cost
50, fuel odometer span [1000, 1300]. -/
def cost_example_db : DB :=
  { vehicles := []
  , repairs := [ { id := 1, vin := cost_example_vin, cost := 100 } ]
  , fuel_logs :=
      [ { id := 1, vin := cost_example_vin, gallons := 5, total_cost := 20
        , odometer := 1000, full_tank := true }
      , { id := 2, vin := cost_example_vin, gallons := 10, total_cost := 30
        , odometer := 1300, full_tank := true } ]
  , maintenance_intervals := [], mileage_history := [], trips := [] }

/-- C4: cost per distance is (repair total + fuel total) divided by the
fuel-odometer span, falling back to the mileage-history span when the fuel
span is non-positive, and 0 when the resulting distance is ≤ 0; for repair
total 100, fuel total 50 and fuel odometers {1000, 1300} it is
150/300 = 0.5. -/
theorem calculate_cost_per_mile_spec (db : DB) (vin : String) :
    (calculate_cost_per_mile db vin).cost_per_mile =
      py_round
        (if 0 < fuel_odometer_span db vin then
          (repair_cost_sum db vin + fuel_cost_sum db vin) /
            (fuel_odometer_span db vin : ℚ)
        else if 0 < mileage_span db vin then
          (repair_cost_sum db vin + fuel_cost_sum db vin) / (mileage_span db vin : ℚ)
        else 0) 3
    ∧ (calculate_cost_per_mile cost_example_db cost_example_vin).cost_per_mile
        = 1/2 := by
  constructor
  · simp only [calculate_cost_per_mile]
    rcases le_or_lt (fuel_odometer_span db vin) 0 with h | h
    · simp [h, not_lt.mpr h]
    · simp [h, not_le.mpr h]
  · norm_num [calculate_cost_per_mile, cost_example_db, cost_example_vin,
      repair_cost_sum, fuel_cost_sum, fuel_odometer_span, mileage_span,
      List.filter, List.max?, List.min?, max_def, min_def, py_round,
      round_half_even, q_floor, Int.fdiv]

/-- C5: `get_overdue` is empty when the vehicle is absent or its current
mileage is 0 or NULL, even if past-due intervals exist; otherwise it returns
exactly the vehicle's intervals whose next-due mileage is strictly below the
current mileage. -/
theorem get_overdue_spec (db : DB) (vin0 vin : String)
    (hv : validate_vin vin0 = .ok vin) :
    (find_vehicle db vin = none → get_overdue db vin0 = .ok [])
    ∧ (∀ veh, find_vehicle db vin = some veh →
        veh.current_mileage = none ∨ veh.current_mileage = some 0 →
        get_overdue db vin0 = .ok [])
    ∧ (∀ veh cm, find_vehicle db vin = some veh →
        veh.current_mileage = some cm → cm ≠ 0 →
        ∃ l, get_overdue db vin0 = .ok l ∧
          ∀ i, i ∈ l ↔ i ∈ db.maintenance_intervals ∧ i.vin = vin ∧
            ∃ n, i.next_due_mileage = some n ∧ n < cm) := by
  refine ⟨fun hnf => ?_, fun veh hf hcm => ?_, fun veh cm hf hcm hne => ?_⟩
  · simp [get_overdue, hv, hnf, Bind.bind, Except.bind]
  · rcases hcm with h | h <;> simp [get_overdue, hv, hf, h, Bind.bind, Except.bind]
  · refine ⟨sort_by le_due_asc
        (db.maintenance_intervals.filter (fun i =>
          i.vin == vin &&
            match i.next_due_mileage with
            | some n => decide (n < cm)
            | none => false)),
      by simp [get_overdue, hv, hf, hcm, hne, Bind.bind, Except.bind],
      fun i => ?_⟩
    rw [mem_sort_by, List.mem_filter]
    constructor
    · rintro ⟨hmem, hp⟩
      rw [Bool.and_eq_true, beq_iff_eq] at hp
      refine ⟨hmem, hp.1, ?_⟩
      rcases hnd : i.next_due_mileage with - | n
      · rw [hnd] at hp
        simp at hp
      · rw [hnd] at hp
        exact ⟨n, rfl, by simpa using hp.2⟩
    · rintro ⟨hmem, hvin, n, hnd, hlt⟩
      refine ⟨hmem, ?_⟩
      rw [Bool.and_eq_true, beq_iff_eq]
      exact ⟨hvin, by simp [hnd, hlt]⟩

/-- The C5 scenario: a vehicle whose current mileage is 0 while a past-due
interval exists. -/
def overdue_example_db : DB :=
  { vehicles :=
      [ { vin := "1HGCM82633A004352", year := 2020, make := "Honda"
        , model := "Civic", current_mileage := some 0 } ]
  , repairs := [], fuel_logs := []
  , maintenance_intervals :=
      [ { id := 1, vin := "1HGCM82633A004352", service_type := "Oil Change"
        , interval_miles := some 5000, interval_months := some 6
        , last_performed_mileage := none, last_performed_date := none
        , next_due_mileage := some (-100), next_due_date := none } ]
  , mileage_history := [], trips := [] }

/-- C5 witness: the zero-mileage vehicle gets an empty overdue list even
though an interval with a long-past next-due mileage exists. -/
theorem get_overdue_spec_witness :
    get_overdue overdue_example_db "1HGCM82633A004352" = .ok [] :=
  (get_overdue_spec overdue_example_db "1HGCM82633A004352" "1HGCM82633A004352"
      (by rfl)).2.1
    { vin := "1HGCM82633A004352", year := 2020, make := "Honda"
    , model := "Civic", current_mileage := some 0 }
    (by rfl) (Or.inr rfl)

/-! ### Lemmas about the default-interval seeding loop -/

theorem take_len_append {α : Type} (l t : List α) : (l ++ t).take l.length = l := by
  simp

theorem has_interval_append (l t : List MaintenanceInterval) (vin st : String) :
    has_interval (l ++ t) vin st = (has_interval l vin st || has_interval t vin st) := by
  simp [has_interval, List.any_append]

theorem has_interval_seed_step_mono {acc : List MaintenanceInterval}
    {vin st : String} (cm : ℤ) (e : String × ℤ × ℤ)
    (h : has_interval acc vin st = true) :
    has_interval (seed_step vin cm acc e) vin st = true := by
  unfold seed_step
  by_cases hx : has_interval acc vin e.1 = true
  · simpa [hx]
  · simp [hx, has_interval_append, h]

theorem has_interval_singleton_seeded (vin : String) (cm : ℤ)
    (acc : List MaintenanceInterval) (e : String × ℤ × ℤ) :
    has_interval [seeded_row vin cm acc e] vin e.1 = true := by
  simp [has_interval, seeded_row]

theorem has_interval_seed_step_self (vin : String) (cm : ℤ)
    (acc : List MaintenanceInterval) (e : String × ℤ × ℤ) :
    has_interval (seed_step vin cm acc e) vin e.1 = true := by
  unfold seed_step
  by_cases hx : has_interval acc vin e.1 = true
  · simp [hx]
  · rw [if_neg hx, has_interval_append, has_interval_singleton_seeded,
      Bool.or_true]

theorem foldl_seed_mono {vin st : String} (cm : ℤ)
    (l : List (String × ℤ × ℤ)) (acc : List MaintenanceInterval)
    (h : has_interval acc vin st = true) :
    has_interval (List.foldl (seed_step vin cm) acc l) vin st = true := by
  induction l generalizing acc with
  | nil => simpa
  | cons e es ih => exact ih _ (has_interval_seed_step_mono cm e h)

theorem has_foldl_seed_of_mem {vin : String} (cm : ℤ)
    {l : List (String × ℤ × ℤ)} {e : String × ℤ × ℤ} (he : e ∈ l)
    (acc : List MaintenanceInterval) :
    has_interval (List.foldl (seed_step vin cm) acc l) vin e.1 = true := by
  induction l generalizing acc with
  | nil => cases he
  | cons f fs ih =>
    rcases List.mem_cons.mp he with heq | hm
    · subst heq
      exact foldl_seed_mono cm fs _ (has_interval_seed_step_self vin cm acc e)
    · exact ih hm _

theorem foldl_seed_of_all_has {vin : String} (cm : ℤ)
    (l : List (String × ℤ × ℤ)) (acc : List MaintenanceInterval)
    (h : ∀ e ∈ l, has_interval acc vin e.1 = true) :
    List.foldl (seed_step vin cm) acc l = acc := by
  induction l with
  | nil => rfl
  | cons f fs ih =>
    have hf : seed_step vin cm acc f = acc := by
      unfold seed_step
      simp [h f (List.mem_cons_self f fs)]
    rw [List.foldl_cons, hf]
    exact ih (fun e he => h e (List.mem_cons_of_mem _ he))

theorem foldl_seed_append_suffix (vin : String) (cm : ℤ)
    (l : List (String × ℤ × ℤ)) (acc : List MaintenanceInterval) :
    ∃ t, List.foldl (seed_step vin cm) acc l = acc ++ t := by
  induction l generalizing acc with
  | nil => exact ⟨[], by simp⟩
  | cons f fs ih =>
    have hstep : ∃ u, seed_step vin cm acc f = acc ++ u := by
      unfold seed_step
      by_cases hx : has_interval acc vin f.1 = true
      · exact ⟨[], by rw [if_pos hx, List.append_nil]⟩
      · exact ⟨[seeded_row vin cm acc f], by rw [if_neg hx]⟩
    obtain ⟨u, hu⟩ := hstep
    obtain ⟨t, ht⟩ := ih (acc ++ u)
    exact ⟨u ++ t, by rw [List.foldl_cons, hu, ht, List.append_assoc]⟩

theorem foldl_seed_creates (vin : String) (cm : ℤ)
    (l : List (String × ℤ × ℤ)) :
    ∀ (acc : List MaintenanceInterval) (e : String × ℤ × ℤ), e ∈ l →
    (∀ x ∈ l, x.1 ≠ e.1 ∨ x = e) →
    has_interval acc vin e.1 = false →
    ∃ i ∈ List.foldl (seed_step vin cm) acc l,
      i.vin = vin ∧ i.service_type = e.1 ∧ i.interval_miles = some e.2.1 ∧
      i.interval_months = some e.2.2 ∧ i.next_due_mileage = some (cm + e.2.1) := by
  induction l with
  | nil => intro acc e he; cases he
  | cons f fs ih =>
    intro acc e he hdist hnot
    by_cases hef : f = e
    · subst hef
      have hstep : seed_step vin cm acc f = acc ++ [seeded_row vin cm acc f] := by
        unfold seed_step
        rw [if_neg (by rw [hnot]; exact Bool.false_ne_true)]
      rw [List.foldl_cons, hstep]
      obtain ⟨t, ht⟩ := foldl_seed_append_suffix vin cm fs _
      rw [ht]
      refine ⟨seeded_row vin cm acc f, ?_, rfl, rfl, rfl, rfl, rfl⟩
      simp
    · have hm : e ∈ fs := by
        rcases List.mem_cons.mp he with heq | hm
        · exact absurd heq.symm hef
        · exact hm
      have hf1 : f.1 ≠ e.1 := by
        rcases hdist f (List.mem_cons_self f fs) with h | h
        · exact h
        · exact absurd h hef
      have hnot' : has_interval (seed_step vin cm acc f) vin e.1 = false := by
        unfold seed_step
        by_cases hx : has_interval acc vin f.1 = true
        · simpa [hx]
        · rw [if_neg hx, has_interval_append, hnot, Bool.false_or]
          simp [has_interval, seeded_row, hf1]
      rw [List.foldl_cons]
      exact ih _ e hm (fun x hx => hdist x (List.mem_cons_of_mem _ hx)) hnot'

theorem find_vehicle_set_intervals (db : DB) (x : List MaintenanceInterval)
    (vin : String) :
    find_vehicle { db with maintenance_intervals := x } vin = find_vehicle db vin :=
  rfl

theorem seeded_intervals_take (vin : String) (cm : ℤ)
    (acc : List MaintenanceInterval) :
    (seeded_intervals acc vin cm).take acc.length = acc := by
  obtain ⟨t, ht⟩ := foldl_seed_append_suffix vin cm DEFAULT_INTERVALS acc
  rw [seeded_intervals, ht, take_len_append]

theorem seeded_intervals_has (vin : String) (cm : ℤ)
    (acc : List MaintenanceInterval) {e : String × ℤ × ℤ}
    (he : e ∈ DEFAULT_INTERVALS) :
    has_interval (seeded_intervals acc vin cm) vin e.1 = true := by
  rw [seeded_intervals]
  exact has_foldl_seed_of_mem cm he acc

theorem seeded_intervals_idem (vin : String) (cm : ℤ)
    (acc : List MaintenanceInterval) :
    seeded_intervals (seeded_intervals acc vin cm) vin cm =
      seeded_intervals acc vin cm := by
  rw [seeded_intervals, foldl_seed_of_all_has]
  exact fun e he => seeded_intervals_has vin cm acc he

/-- The service types of the default-interval table are pairwise distinct. -/
theorem default_intervals_firsts_distinct :
    ∀ e ∈ DEFAULT_INTERVALS, ∀ x ∈ DEFAULT_INTERVALS, x.1 ≠ e.1 ∨ x = e := by
  decide

theorem seeded_intervals_creates (vin : String) (cm : ℤ)
    (acc : List MaintenanceInterval) {e : String × ℤ × ℤ}
    (he : e ∈ DEFAULT_INTERVALS) (hnot : has_interval acc vin e.1 = false) :
    ∃ i ∈ seeded_intervals acc vin cm,
      i.vin = vin ∧ i.service_type = e.1 ∧ i.interval_miles = some e.2.1 ∧
      i.interval_months = some e.2.2 ∧ i.next_due_mileage = some (cm + e.2.1) := by
  rw [seeded_intervals]
  exact foldl_seed_creates vin cm DEFAULT_INTERVALS acc e he
    (default_intervals_firsts_distinct e he) hnot

/-- C3: default-interval seeding is idempotent — running it twice equals
running it once — and on success it leaves the pre-existing interval rows
untouched (they remain an unchanged initial segment), gives every default
service type an interval row, and rows it creates carry the default values
with next-due mileage = current mileage + default distance interval. -/
theorem init_for_vehicle_spec (db : DB) (vin0 : String) :
    ((init_for_vehicle db vin0).bind fun d => init_for_vehicle d vin0) =
      init_for_vehicle db vin0
    ∧ (∀ d, init_for_vehicle db vin0 = .ok d →
        d.maintenance_intervals.take db.maintenance_intervals.length =
          db.maintenance_intervals
        ∧ (∀ e ∈ DEFAULT_INTERVALS,
            has_interval d.maintenance_intervals (normalize_vin vin0) e.1 = true)
        ∧ (∀ veh, find_vehicle db (normalize_vin vin0) = some veh →
            ∀ e ∈ DEFAULT_INTERVALS,
            has_interval db.maintenance_intervals (normalize_vin vin0) e.1 = false →
            ∃ i ∈ d.maintenance_intervals, i.vin = normalize_vin vin0 ∧
              i.service_type = e.1 ∧ i.interval_miles = some e.2.1 ∧
              i.interval_months = some e.2.2 ∧
              i.next_due_mileage = some (veh.current_mileage.getD 0 + e.2.1))) := by
  cases hv : validate_vin vin0 with
  | error er =>
    refine ⟨?_, ?_⟩
    · simp [init_for_vehicle, hv, Bind.bind, Except.bind]
    · intro d hd
      simp [init_for_vehicle, hv, Bind.bind, Except.bind] at hd
  | ok vin =>
    have hnv := validate_vin_ok_eq hv
    subst hnv
    cases hf : find_vehicle db (normalize_vin vin0) with
    | none =>
      refine ⟨?_, ?_⟩
      · simp [init_for_vehicle, hv, hf, Bind.bind, Except.bind]
      · intro d hd
        simp [init_for_vehicle, hv, hf, Bind.bind, Except.bind] at hd
    | some veh =>
      have hidem := seeded_intervals_idem (normalize_vin vin0)
        (veh.current_mileage.getD 0) db.maintenance_intervals
      have hok : init_for_vehicle db vin0 = .ok
          { db with maintenance_intervals :=
              (seeded_intervals db.maintenance_intervals (normalize_vin vin0)
                (veh.current_mileage.getD 0)) } := by
        simp [init_for_vehicle, hv, hf, Bind.bind, Except.bind]
      refine ⟨?_, ?_⟩
      · rw [hok]
        show init_for_vehicle _ vin0 = _
        simp only [init_for_vehicle, hv, Bind.bind, Except.bind,
          find_vehicle_set_intervals, hf, hidem]
      · intro d hd
        rw [hok] at hd
        injection hd with hd
        have hmi : d.maintenance_intervals =
            seeded_intervals db.maintenance_intervals (normalize_vin vin0)
              (veh.current_mileage.getD 0) := by
          rw [← hd]
        refine ⟨?_, ?_, ?_⟩
        · rw [hmi]
          exact seeded_intervals_take _ _ _
        · intro e he
          rw [hmi]
          exact seeded_intervals_has _ _ _ he
        · intro veh' hveh' e he hnot
          injection hveh' with hveh'
          subst hveh'
          rw [hmi]
          exact seeded_intervals_creates _ _ _ he hnot

/-- A fresh vehicle with no maintenance intervals, for the C3 witness. -/
def seed_example_db : DB :=
  { vehicles :=
      [ { vin := "5YFBURHE5HP123456", year := 2019, make := "Toyota"
        , model := "Corolla", current_mileage := some 55000 } ]
  , repairs := [], fuel_logs := [], maintenance_intervals := []
  , mileage_history := [], trips := [] }

/-- The state after seeding the fresh vehicle once. -/
def seed_example_db' : DB :=
  ((init_for_vehicle seed_example_db "5YFBURHE5HP123456").toOption).getD
    seed_example_db

/-- C3 witness: seeding the concrete fresh vehicle twice equals seeding it
once, and the (empty) pre-existing interval list is untouched. -/
theorem init_for_vehicle_spec_witness :
    ((init_for_vehicle seed_example_db "5YFBURHE5HP123456").bind
        fun d => init_for_vehicle d "5YFBURHE5HP123456") =
      init_for_vehicle seed_example_db "5YFBURHE5HP123456"
    ∧ seed_example_db'.maintenance_intervals.take
        seed_example_db.maintenance_intervals.length =
      seed_example_db.maintenance_intervals :=
  ⟨(init_for_vehicle_spec seed_example_db "5YFBURHE5HP123456").1,
    ((init_for_vehicle_spec seed_example_db "5YFBURHE5HP123456").2
      seed_example_db' (by rfl)).1⟩

/-- C7: recording a service against an existing interval with an explicit
date and non-negative distance succeeds and stores
next-due distance = recorded distance + interval distance (when the interval
distance is set and non-zero) and next-due date = recorded date +
interval months × 30 days; in particular a set, positive interval distance
always yields a next-due distance ≥ the recorded distance. -/
theorem record_service_spec (db : DB) (today : ℤ) (vin0 vin st : String)
    (itv : MaintenanceInterval) (d m : ℤ)
    (hv : validate_vin vin0 = .ok vin)
    (hi : find_interval db vin st = some itv)
    (hm : 0 ≤ m) :
    ((record_service db today vin0 st (some d) (some m)).toOption.isSome = true)
    ∧ ∀ db' itv',
        record_service db today vin0 st (some d) (some m) = .ok (db', itv') →
        itv'.last_performed_date = some d
        ∧ itv'.last_performed_mileage = some m
        ∧ (∀ k, itv.interval_miles = some k → k ≠ 0 →
            itv'.next_due_mileage = some (m + k))
        ∧ (∀ mo, itv.interval_months = some mo → mo ≠ 0 →
            itv'.next_due_date = some (d + mo * 30))
        ∧ (∀ k, itv.interval_miles = some k → 0 < k →
            ∃ n, itv'.next_due_mileage = some n ∧ m ≤ n) := by
  have hmlt : ¬ m < 0 := not_lt.mpr hm
  have hrun : record_service db today vin0 st (some d) (some m) = .ok
      ({ db with maintenance_intervals :=
          (db.maintenance_intervals.map (fun i =>
            if i.id = itv.id then
              { itv with
                last_performed_date := some d
                , last_performed_mileage := some m
                , next_due_date :=
                    match itv.interval_months with
                    | some mo => if mo = 0 then none else some (d + mo * 30)
                    | none => none
                , next_due_mileage :=
                    match itv.interval_miles with
                    | some k => if k = 0 then none else some (m + k)
                    | none => none }
            else i)) }
      , { itv with
          last_performed_date := some d
          , last_performed_mileage := some m
          , next_due_date :=
              match itv.interval_months with
              | some mo => if mo = 0 then none else some (d + mo * 30)
              | none => none
          , next_due_mileage :=
              match itv.interval_miles with
              | some k => if k = 0 then none else some (m + k)
              | none => none }) := by
    cases hmil : itv.interval_miles with
    | none =>
      simp [record_service, hv, hi, hmlt, hmil, Bind.bind, Except.bind]
    | some k =>
      by_cases hk : k = 0
      · simp [record_service, hv, hi, hmlt, hmil, hk, Bind.bind, Except.bind]
      · simp [record_service, hv, hi, hmlt, hmil, hk, Bind.bind, Except.bind]
  refine ⟨by rw [hrun]; rfl, ?_⟩
  intro db' itv' h
  rw [hrun] at h
  injection h with h
  have hitv' : itv' =
      { itv with
        last_performed_date := some d
        , last_performed_mileage := some m
        , next_due_date :=
            match itv.interval_months with
            | some mo => if mo = 0 then none else some (d + mo * 30)
            | none => none
        , next_due_mileage :=
            match itv.interval_miles with
            | some k => if k = 0 then none else some (m + k)
            | none => none } :=
    (congrArg Prod.snd h).symm
  subst hitv'
  refine ⟨rfl, rfl, ?_, ?_, ?_⟩
  · intro k hk hk0
    simp [hk, hk0]
  · intro mo hmo hmo0
    simp [hmo, hmo0]
  · intro k hk hk0
    refine ⟨m + k, by simp [hk, hk0.ne'], by omega⟩

/-- State for the C7 witness: one vehicle with one "Oil Change" interval of
5000 distance units / 6 months. -/
def record_example_db : DB :=
  { vehicles :=
      [ { vin := "1HGCM82633A004352", year := 2020, make := "Honda"
        , model := "Civic", current_mileage := some 45000 } ]
  , repairs := [], fuel_logs := []
  , maintenance_intervals :=
      [ { id := 7, vin := "1HGCM82633A004352", service_type := "Oil Change"
        , interval_miles := some 5000, interval_months := some 6
        , last_performed_mileage := none, last_performed_date := none
        , next_due_mileage := some 47000, next_due_date := none } ]
  , mileage_history := [], trips := [] }

/-- The interval row produced by the C7 witness run. -/
def record_example_result : DB × MaintenanceInterval :=
  ((record_service record_example_db 0 "1HGCM82633A004352" "Oil Change"
      (some 100) (some 42000)).toOption).getD
    (record_example_db,
      { id := 0, vin := "", service_type := ""
      , interval_miles := none, interval_months := none
      , last_performed_mileage := none, last_performed_date := none
      , next_due_mileage := none, next_due_date := none })

/-- C7 witness: recording "Oil Change" at distance 42000 succeeds and sets
next-due mileage 42000 + 5000, which is ≥ 42000. -/
theorem record_service_spec_witness :
    ((record_service record_example_db 0 "1HGCM82633A004352" "Oil Change"
        (some 100) (some 42000)).toOption.isSome = true)
    ∧ record_example_result.2.next_due_mileage = some (42000 + 5000)
    ∧ (42000 : ℤ) ≤ 42000 + 5000 := by
  have h := record_service_spec record_example_db 0 "1HGCM82633A004352"
    "1HGCM82633A004352" "Oil Change"
    { id := 7, vin := "1HGCM82633A004352", service_type := "Oil Change"
    , interval_miles := some 5000, interval_months := some 6
    , last_performed_mileage := none, last_performed_date := none
    , next_due_mileage := some 47000, next_due_date := none }
    100 42000 (by rfl) (by rfl) (by decide)
  refine ⟨h.1, ?_, by decide⟩
  exact (h.2 record_example_result.1 record_example_result.2 (by rfl)).2.2.1
    5000 rfl (by decide)

theorem find_vehicle_purge (db : DB) (vin v : String) :
    find_vehicle (purge_dependents db vin) v = find_vehicle db v :=
  rfl

theorem mem_filter_vin_ne {α : Type} (get : α → String) (l : List α)
    (vin : String) {x : α} (h : x ∈ l.filter (fun y => get y != vin)) :
    get x ≠ vin := by
  have := (List.mem_filter.mp h).2
  simpa [bne_iff_ne] using this

/-- C8: deleting an existing vehicle (valid identifier, row present) succeeds
and leaves no row carrying that identifier in trips, fuel logs, repairs,
maintenance intervals, mileage history — or in the vehicles table itself. -/
theorem vehicle_delete_cascades (db : DB) (vin0 vin : String)
    (hv : validate_vin vin0 = .ok vin)
    (hveh : (find_vehicle db vin).isSome = true) :
    (vehicle_delete db vin0).2 = .ok true
    ∧ (∀ t ∈ (vehicle_delete db vin0).1.trips, t.vin ≠ vin)
    ∧ (∀ f ∈ (vehicle_delete db vin0).1.fuel_logs, f.vin ≠ vin)
    ∧ (∀ r ∈ (vehicle_delete db vin0).1.repairs, r.vin ≠ vin)
    ∧ (∀ i ∈ (vehicle_delete db vin0).1.maintenance_intervals, i.vin ≠ vin)
    ∧ (∀ m ∈ (vehicle_delete db vin0).1.mileage_history, m.vin ≠ vin)
    ∧ (∀ v ∈ (vehicle_delete db vin0).1.vehicles, v.vin ≠ vin) := by
  obtain ⟨veh, hf⟩ := Option.isSome_iff_exists.mp hveh
  have hf' : find_vehicle (purge_dependents db vin) vin = some veh := hf
  have hrun : vehicle_delete db vin0 =
      ({ purge_dependents db vin with
          vehicles := (purge_dependents db vin).vehicles.filter
            (fun v => v.vin != vin) }, .ok true) := by
    simp only [vehicle_delete, hv, hf']
  rw [hrun]
  refine ⟨rfl, ?_, ?_, ?_, ?_, ?_, ?_⟩
  · exact fun t ht => mem_filter_vin_ne Trip.vin db.trips vin ht
  · exact fun f hfm => mem_filter_vin_ne FuelLog.vin db.fuel_logs vin hfm
  · exact fun r hr => mem_filter_vin_ne Repair.vin db.repairs vin hr
  · exact fun i hi => mem_filter_vin_ne MaintenanceInterval.vin
      db.maintenance_intervals vin hi
  · exact fun m hm => mem_filter_vin_ne MileageEntry.vin db.mileage_history vin hm
  · exact fun v hvm => mem_filter_vin_ne Vehicle.vin db.vehicles vin hvm

/-- State for the C8 witness: one vehicle with one dependent row in each
table. -/
def delete_example_db : DB :=
  { vehicles :=
      [ { vin := "1HGCM82633A004352", year := 2020, make := "Honda"
        , model := "Civic", current_mileage := some 45000 } ]
  , repairs := [ { id := 1, vin := "1HGCM82633A004352", cost := 100 } ]
  , fuel_logs :=
      [ { id := 1, vin := "1HGCM82633A004352", gallons := 10, total_cost := 30
        , odometer := 1300, full_tank := true } ]
  , maintenance_intervals :=
      [ { id := 1, vin := "1HGCM82633A004352", service_type := "Oil Change"
        , interval_miles := some 5000, interval_months := some 6
        , last_performed_mileage := none, last_performed_date := none
        , next_due_mileage := some 47000, next_due_date := none } ]
  , mileage_history := [ { id := 1, vin := "1HGCM82633A004352", mileage := 45000 } ]
  , trips := [ { id := 1, vin := "1HGCM82633A004352" } ] }

/-- C8 witness: deleting the concrete vehicle succeeds and each dependent
table keeps no row with its identifier. -/
theorem vehicle_delete_cascades_witness :
    (vehicle_delete delete_example_db "1HGCM82633A004352").2 = .ok true
    ∧ (∀ f ∈ (vehicle_delete delete_example_db "1HGCM82633A004352").1.fuel_logs,
        f.vin ≠ "1HGCM82633A004352") := by
  have h := vehicle_delete_cascades delete_example_db "1HGCM82633A004352"
    "1HGCM82633A004352" (by rfl) (by rfl)
  exact ⟨h.1, h.2.2.1⟩

/-- A fuel-log row whose vehicle row is absent (no foreign key enforces the
pair on `fuel_logs`), for refuting the all-or-nothing claim. -/
def orphan_db : DB :=
  { vehicles := [], repairs := []
  , fuel_logs :=
      [ { id := 1, vin := "1HGCM82633A004352", gallons := 10, total_cost := 30
        , odometer := 1300, full_tank := true } ]
  , maintenance_intervals := [], mileage_history := [], trips := [] }

/-- C2 counterexample: deleting a valid-format identifier with no vehicle
row raises NotFound, yet the state has changed — the dependent fuel-log row
was already deleted and committed before the existence check. -/
theorem vehicle_delete_partial_effect_cex :
    (vehicle_delete orphan_db "1HGCM82633A004352").2 = .error .notFound
    ∧ (vehicle_delete orphan_db "1HGCM82633A004352").1 ≠ orphan_db := by
  refine ⟨rfl, fun h => ?_⟩
  have h0 : (vehicle_delete orphan_db "1HGCM82633A004352").1.fuel_logs.length = 0 :=
    rfl
  rw [h] at h0
  exact absurd h0 (by simp [orphan_db])

/-- C2 (amended): a validation error leaves the state unchanged, but a
NotFound delete (valid-format identifier, no vehicle row) raises only after
the five dependent-table deletions have committed: the vehicles table is
untouched while the dependent rows for that identifier are gone. -/
theorem vehicle_delete_error_effects (db : DB) (vin0 : String) :
    (∀ e, validate_vin vin0 = .error e → vehicle_delete db vin0 = (db, .error e))
    ∧ (∀ vin, validate_vin vin0 = .ok vin → find_vehicle db vin = none →
        vehicle_delete db vin0 = (purge_dependents db vin, .error .notFound)
        ∧ (purge_dependents db vin).vehicles = db.vehicles) := by
  constructor
  · intro e he
    rw [vehicle_delete, he]
  · intro vin hv hnf
    have hnf' : find_vehicle (purge_dependents db vin) vin = none := hnf
    exact ⟨by simp only [vehicle_delete, hv, hnf'], rfl⟩

/-- C2 witness: on the concrete orphaned state the delete reports NotFound
while the fuel-log row is purged and the vehicles table is untouched. -/
theorem vehicle_delete_error_effects_witness :
    vehicle_delete orphan_db "1HGCM82633A004352" =
      (purge_dependents orphan_db "1HGCM82633A004352", .error .notFound)
    ∧ (purge_dependents orphan_db "1HGCM82633A004352").vehicles =
        orphan_db.vehicles :=
  (vehicle_delete_error_effects orphan_db "1HGCM82633A004352").2
    "1HGCM82633A004352" (by rfl) (by rfl)

/-- The row `VehicleService.create` persists into the vehicles table for
valid input: the validated identifier, the given fields, and the schema
default 0 when no mileage was supplied. -/
def created_vehicle (data : VehicleData) (vin : String) : Vehicle :=
  { vin := vin, year := data.year, make := data.make, model := data.model
  , current_mileage := some (data.current_mileage.getD 0) }

/-- An empty store, for the C10 scenarios. -/
def no_vehicles_db : DB :=
  { vehicles := [], repairs := [], fuel_logs := []
  , maintenance_intervals := [], mileage_history := [], trips := [] }

/-- Input for the C10 scenarios. -/
def create_example_data : VehicleData :=
  { vin := " 1hgcm82633a004352 ", year := 2020, make := "Honda"
  , model := "Civic", current_mileage := some 45000 }

/-- C10 counterexample: on an empty store, with a seeding routine that
always fails, `create` completes and persists the vehicle — but its return
payload is `none`, not the created vehicle row: the `get_by_id(lastrowid)`
re-read compares the 17-character `vin` against the rowid's decimal string
"1" and matches nothing. -/
theorem vehicle_create_returns_none_cex :
    vehicle_create (fun _ _ => .error .validation) no_vehicles_db
        create_example_data =
      .ok ({ no_vehicles_db with vehicles :=
              [created_vehicle create_example_data "1HGCM82633A004352"] }, none)
    ∧ (none : Option Vehicle) ≠
        some (created_vehicle create_example_data "1HGCM82633A004352") := by
  refine ⟨?_, by simp⟩
  rfl

/-- C10 (amended, implicit): for valid input, `VehicleService.create`
completes successfully for EVERY interval-seeding routine — the
`try/except pass` swallows any seeding failure, so creation never fails on
account of interval seeding, and when seeding fails the resulting state
contains the new vehicle while its maintenance-interval table is exactly
the old one (the vehicle exists with no seeded intervals) — but the value
returned is `None`, not the created vehicle row: `BaseService.create`
re-reads via `get_by_id(cursor.lastrowid)`, and the integer rowid never
matches the 17-character TEXT `vin` primary key (hypotheses: stored
identifiers have 17 characters and the rowid's decimal form does not). -/
theorem vehicle_create_spec (initFn : DB → String → Except Err DB) (db : DB)
    (data : VehicleData) (vin : String)
    (hv : validate_vin data.vin = .ok vin)
    (hy1 : 1900 ≤ data.year) (hy2 : data.year ≤ 2100)
    (hnf : find_vehicle db vin = none)
    (hcm : ∀ mv, data.current_mileage = some mv → 0 ≤ mv)
    (hrow : (toString (db.vehicles.length + 1)).length ≠ 17)
    (hold : ∀ v ∈ db.vehicles, v.vin.length = 17) :
    (∃ db2, vehicle_create initFn db data = .ok (db2, none))
    ∧ (∀ e, vehicle_create (fun _ _ => .error e) db data =
        .ok ({ db with vehicles := db.vehicles ++ [created_vehicle data vin] },
          none))
    ∧ ({ db with vehicles := db.vehicles ++ [created_vehicle data vin] }
        : DB).maintenance_intervals = db.maintenance_intervals := by
  have hyear : ¬ (data.year < 1900 ∨ 2100 < data.year) := by
    push_neg
    exact ⟨hy1, hy2⟩
  have hlookup : ∀ cmx : Option ℤ,
      rowid_lookup (db.vehicles ++
        [{ vin := vin, year := data.year, make := data.make, model := data.model
         , current_mileage := cmx }])
        (db.vehicles.length + 1) = none := by
    intro cmx
    rw [rowid_lookup, List.find?_eq_none]
    intro v hvmem
    rcases List.mem_append.mp hvmem with h | h
    · simp only [beq_iff_eq]
      intro heq
      have h17 := hold v h
      rw [heq] at h17
      exact hrow h17
    · simp only [List.mem_singleton] at h
      subst h
      simp only [beq_iff_eq]
      intro heq
      have h17 := validate_vin_ok_length hv
      rw [heq] at h17
      exact hrow h17
  have hcm' : ∀ g : DB → String → Except Err DB,
      vehicle_create g db data = .ok
        ((match g { db with vehicles := db.vehicles ++ [created_vehicle data vin] }
            vin with
          | .ok d => d
          | .error _ =>
            { db with vehicles := db.vehicles ++ [created_vehicle data vin] }),
          none) := by
    intro g
    cases hmv : data.current_mileage with
    | none =>
      simp [vehicle_create, hv, hyear, hnf, hmv, Bind.bind, Except.bind,
        created_vehicle, hlookup]
    | some mv =>
      have hmlt : ¬ mv < 0 := not_lt.mpr (hcm mv hmv)
      simp [vehicle_create, hv, hyear, hnf, hmv, hmlt, Bind.bind, Except.bind,
        created_vehicle, hlookup]
  refine ⟨?_, ?_, rfl⟩
  · rw [hcm' initFn]
    cases initFn { db with vehicles := db.vehicles ++ [created_vehicle data vin] }
        vin with
    | ok d => exact ⟨d, rfl⟩
    | error e =>
      exact ⟨{ db with vehicles := db.vehicles ++ [created_vehicle data vin] }, rfl⟩
  · intro e
    rw [hcm' (fun _ _ => .error e)]

/-- C10 witness: with a seeding routine that always fails, creation on the
empty store still completes, returns `none`, leaves the new vehicle in the
store and no interval rows. -/
theorem vehicle_create_spec_witness :
    vehicle_create (fun _ _ => .error .validation) no_vehicles_db
        create_example_data =
      .ok ({ no_vehicles_db with vehicles := no_vehicles_db.vehicles ++
              [created_vehicle create_example_data "1HGCM82633A004352"] },
        none)
    ∧ ({ no_vehicles_db with vehicles := no_vehicles_db.vehicles ++
          [created_vehicle create_example_data "1HGCM82633A004352"] }
        : DB).maintenance_intervals = no_vehicles_db.maintenance_intervals := by
  have h := vehicle_create_spec (fun _ _ => .error .validation) no_vehicles_db
    create_example_data "1HGCM82633A004352" (by rfl) (by decide) (by decide)
    (by rfl) (by intro mv hmv; injection hmv with hmv; omega)
    (by decide) (by intro v hv; cases hv)
  exact ⟨h.2.1 .validation, h.2.2⟩

end CarLog
